import Mathlib

/-!
Verification development for the grind trading bot (Go sources).

Shallow embedding conventions:
- Go float64 fields and arithmetic are modelled by exact rationals.
- Go uint64 and uint8 are modelled by Nat with explicit reduction mod 256
  where the code converts to a single byte.
- Go time.Duration is modelled by Int nanoseconds, time.Time instants by Int.
- Go maps are modelled by association lists, network calls by oracle
  parameters (an environment function giving the outcome of each attempt,
  provider functions returning Except values).
- Go panics are modelled by explicit outcome constructors; a function that
  can panic returns a result type with a dedicated constructor for it.
-/

/-- Association-list lookup by string key, modelling a read from a Go map
together with its success flag. -/
def assocFind {α : Type} (key : String) : List (String × α) → Option α
  | [] => none
  | (k, v) :: rest => if k = key then some v else assocFind key rest

namespace Types

/-- Pool record, following the RaydiumPool struct of the types package.
Field defaults are the Go zero values. -/
structure RaydiumPool where
  AmmId : String := ""
  LpMint : String := ""
  BaseMint : String := ""
  QuoteMint : String := ""
  BaseDecimals : Int := 0
  QuoteDecimals : Int := 0
  LpDecimals : Int := 0
  Version : Int := 0
  Status : Int := 0
  PriceKey : String := ""
  TokenAmountCoin : ℚ := 0
  TokenAmountPc : ℚ := 0
deriving Repr, DecidableEq

/-- Pair record, following the RaydiumPair struct of the types package
(the shape used by the services package). Field defaults are Go zero values. -/
structure RaydiumPair where
  Name : String := ""
  Symbol : String := ""
  Address : String := ""
  Timestamp : String := ""
  Pool : RaydiumPool := {}
  Market : String := ""
  Liquidity : ℚ := 0
  Price : ℚ := 0
  Volume24h : ℚ := 0
  MarketCap : ℚ := 0
  TokenAmount : ℚ := 0
  TokenAddress : String := ""
deriving Repr, DecidableEq

/-- Social-presence record shared by the services package. -/
structure SocialMetrics where
  TwitterFollowers : Int := 0
  TelegramMembers : Int := 0
  WebsiteExists : Bool := false
  GitHubExists : Bool := false
  HasWhitepaper : Bool := false
deriving Repr, DecidableEq

def MIN_LIQUIDITY_USD : ℚ := 500

def MAX_MARKET_CAP_USD : ℚ := 1000000

def MIN_HOLDER_COUNT : Int := 100

/-- Sentinel system-program address used by the Go sources as an inline
string literal. -/
def systemProgramAddress : String := "11111111111111111111111111111111"

end Types

namespace Services

open Types

/-- Validity filter of the Pair Fetcher, translated from IsValidPair in
services raydium.go. The Go function checks Market with a mint, then
Liquidity, then Price, then both mints; it never reads the Address field. -/
def IsValidPair (pair : RaydiumPair) : Bool :=
  if pair.Market ≠ "" ∧ (pair.Pool.BaseMint ≠ "" ∨ pair.Pool.QuoteMint ≠ "") then true
  else if pair.Liquidity > 0 then true
  else if pair.Price > 0 then true
  else if pair.Pool.BaseMint ≠ "" ∧ pair.Pool.QuoteMint ≠ "" then true
  else false

/-- Outcome of one HTTP attempt inside FetchRaydiumPairs, the oracle input
of the embedding. Transport failures cover request creation, connection,
gzip-reader and body-read errors (each hit a continue in the Go loop); a
response carries the HTTP status code and the result of the JSON decode of
the body. -/
inductive AttemptOutcome where
  | transportFailure (cause : String)
  | response (status : Nat) (decoded : Except String (List RaydiumPair))

/-- Error values produced by the distinct fmt.Errorf branches of
FetchRaydiumPairs, each carrying the data the Go code formats into the
message: the terminal retry error wraps the last underlying error, the
decode error wraps the json.Unmarshal error, and the data-quality error
reports the number of filtered pairs. -/
inductive FetchError where
  | maxRetriesExceeded (lastErr : String)
  | unmarshalFailure (cause : String)
  | noValidPairsFound (total : Nat)
deriving Repr, DecidableEq

/-- Result of FetchRaydiumPairs. The panics constructor models a Go runtime
panic (index out of range). -/
inductive FetchResult where
  | ok (pairs : List RaydiumPair)
  | fetchError (e : FetchError)
  | panics (msg : String)
deriving Repr, DecidableEq

/-- Panic message for indexing an empty slice. -/
def indexOutOfRangeMsg : String := "runtime error: index out of range"

/-- Body handling of a successfully read and decoded response, translated
from lines 154-195 of services raydium.go: the debug log indexes pairs at 0
before any length check, then the validity filter runs, then either the
valid pairs or a data-quality error is returned. -/
def fetchBody (pairs : List RaydiumPair) : FetchResult :=
  if pairs.isEmpty then .panics indexOutOfRangeMsg
  else
    let validPairs := pairs.filter IsValidPair
    if validPairs.isEmpty then .fetchError (.noValidPairsFound pairs.length)
    else .ok validPairs

/-- Retry loop of FetchRaydiumPairs, translated from services raydium.go.
The attempt counter indexes the oracle; remaining is the fuel left out of
maxRetries = 3. Transport failures record the cause and continue; a decode
failure returns at once; a decoded body is processed by fetchBody. The HTTP
status code is logged but never inspected. -/
def fetchFrom (env : Nat → AttemptOutcome) (attempt : Nat) :
    Nat → String → FetchResult
  | 0, lastErr => .fetchError (.maxRetriesExceeded lastErr)
  | remaining + 1, _lastErr =>
    match env attempt with
    | .transportFailure cause => fetchFrom env (attempt + 1) remaining cause
    | .response _status (.error cause) => .fetchError (.unmarshalFailure cause)
    | .response _status (.ok pairs) => fetchBody pairs

/-- FetchRaydiumPairs of services raydium.go as a function of the attempt
oracle: three attempts starting from attempt index 0 with an empty last
error. -/
def FetchRaydiumPairs (env : Nat → AttemptOutcome) : FetchResult :=
  fetchFrom env 0 3 ""

/-- Replaces the HTTP status of every response delivered by the oracle,
leaving everything else unchanged. Used to state that the fetch loop never
inspects the status code. -/
def withStatus (f : Nat → Nat) (env : Nat → AttemptOutcome) : Nat → AttemptOutcome :=
  fun i =>
    match env i with
    | .transportFailure cause => .transportFailure cause
    | .response _status decoded => .response (f i) decoded

/-- Trading metrics, following the TokenMetrics struct of services
safety_checker.go. -/
structure TokenMetrics where
  Liquidity : ℚ := 0
  Volume24h : ℚ := 0
  MarketCap : ℚ := 0
deriving Repr, DecidableEq

/-- Safety snapshot, following the TokenSafetyMetrics struct of services
safety_checker.go. LiquidityLockTime is in nanoseconds. -/
structure TokenSafetyMetrics where
  LiquidityLocked : Bool := false
  LiquidityLockTime : Int := 0
  IsHoneypot : Bool := false
  TopHolderShare : ℚ := 0
  HolderCount : Int := 0
  SocialMetrics : Types.SocialMetrics := {}
deriving Repr, DecidableEq

/-- Liquidity part of the score in CalculateTokenScore: the capped ratio to
the minimum liquidity times its weight of 20. -/
def liquidityContribution (liquidity : ℚ) : ℚ :=
  min (liquidity / MIN_LIQUIDITY_USD) 5 * 20

/-- Desirability score, translated from CalculateTokenScore in services
safety_checker.go. -/
def CalculateTokenScore (metrics : TokenMetrics) (safety : TokenSafetyMetrics) : ℚ :=
  let score : ℚ := 0
  let score := score + liquidityContribution metrics.Liquidity
  let score :=
    if metrics.Liquidity > 0 then
      score + min (metrics.Volume24h / metrics.Liquidity * 50) 100
    else score
  let marketCapScore := 1 - metrics.MarketCap / MAX_MARKET_CAP_USD
  let score := score + marketCapScore * 30
  let safetyMultiplier : ℚ := 1
  let holderScore := (safety.HolderCount : ℚ) / (MIN_HOLDER_COUNT : ℚ)
  let safetyMultiplier := safetyMultiplier * min holderScore 2
  let safetyMultiplier :=
    if safety.TopHolderShare > 0.5 then safetyMultiplier * 0.5 else safetyMultiplier
  let safetyMultiplier :=
    if safety.LiquidityLocked then safetyMultiplier * 1.2 else safetyMultiplier
  let socialScore : ℚ :=
    (if safety.SocialMetrics.WebsiteExists then (0.1 : ℚ) else 0)
    + (if safety.SocialMetrics.GitHubExists then (0.1 : ℚ) else 0)
    + (if safety.SocialMetrics.HasWhitepaper then (0.1 : ℚ) else 0)
  let safetyMultiplier := safetyMultiplier * (1 + socialScore)
  score * safetyMultiplier

/-- Numeric value of an ASCII digit. -/
def digitVal (c : Char) : Option Nat :=
  if c.isDigit then some (c.toNat - 48) else none

/-- Accumulating base-10 parse of a digit list. -/
def parseDigitsAux : List Char → Nat → Option Nat
  | [], acc => some acc
  | c :: rest, acc =>
    match digitVal c with
    | some d => parseDigitsAux rest (10 * acc + d)
    | none => none

/-- Models Go strconv.ParseFloat on plain decimal numerals: optional sign,
an integer part and an optional fractional part after a single dot, at
least one digit overall. Exponents and special forms are out of scope of
the claims and left unmodelled (they yield none). -/
def parseDecimal (s : String) : Option ℚ :=
  let body : List Char → Option ℚ := fun cs =>
    let intPart := cs.takeWhile (fun c => c ≠ '.')
    let rest := cs.dropWhile (fun c => c ≠ '.')
    match rest with
    | [] =>
      if intPart.isEmpty then none
      else (parseDigitsAux intPart 0).map (fun n => (n : ℚ))
    | _dot :: fracPart =>
      if intPart.isEmpty ∧ fracPart.isEmpty then none
      else
        match parseDigitsAux intPart 0, parseDigitsAux fracPart 0 with
        | some n, some f => some ((n : ℚ) + (f : ℚ) / (10 : ℚ) ^ fracPart.length)
        | _, _ => none
  match s.data with
  | [] => none
  | '-' :: rest => (body rest).map (fun q => -q)
  | '+' :: rest => body rest
  | cs => body cs

/-- Models Go strings.ToLower; it coincides with the Go function on ASCII
strings, which is what token addresses are. -/
def goToLower (s : String) : String := String.mk (s.data.map Char.toLower)

/-- Does the string contain an ASCII uppercase character. -/
def containsUpper (s : String) : Bool := s.data.any Char.isUpper

/-- Per-token security fields of the GoPlus response decoded by
DetectHoneypot in services safety_checker.go; all fields are strings in the
JSON schema. -/
structure GoPlusTokenData where
  IsSellable : String := ""
  SellTax : String := ""
  BuyTax : String := ""
  TransferPaused : String := ""
  IsBlacklisted : String := ""
  IsProxy : String := ""
  IsHoneypot : String := ""
deriving Repr, DecidableEq

/-- Decoded GoPlus security response: status code, message and the per-token
data map keyed by token address. -/
structure GoPlusSecurityResponse where
  Code : Int := 0
  Message : String := ""
  Data : List (String × GoPlusTokenData) := []

/-- Honeypot determination from the token data, translated from the chain of
flag checks at the end of DetectHoneypot in services safety_checker.go. -/
def honeypotVerdict (tokenData : GoPlusTokenData) : Bool :=
  let isHoneypot := false
  let isHoneypot := if tokenData.IsHoneypot = "1" then true else isHoneypot
  let isHoneypot := if tokenData.IsSellable = "0" then true else isHoneypot
  let isHoneypot :=
    match parseDecimal tokenData.SellTax with
    | some sellTax => if sellTax > 20 then true else isHoneypot
    | none => isHoneypot
  let isHoneypot :=
    match parseDecimal tokenData.BuyTax with
    | some buyTax => if buyTax > 20 then true else isHoneypot
    | none => isHoneypot
  let isHoneypot := if tokenData.TransferPaused = "1" then true else isHoneypot
  let isHoneypot := if tokenData.IsBlacklisted = "1" then true else isHoneypot
  isHoneypot

/-- DetectHoneypot of services safety_checker.go, from the decoded provider
response on (the HTTP fetch and JSON decode are oracle inputs; this models
the code after a successful decode): a non-1 code is an API error, then the
data map is consulted at the lowercased token address, and a missing entry
is an error. -/
def DetectHoneypot (result : GoPlusSecurityResponse) (tokenAddress : String) :
    Except String Bool :=
  if result.Code ≠ 1 then .error ("API error: " ++ result.Message)
  else
    match assocFind (goToLower tokenAddress) result.Data with
    | none => .error "token data not found in response"
    | some tokenData => .ok (honeypotVerdict tokenData)

end Services

namespace Main

/-- Pool record of package main (main.go declares its own copy with seven
fields). Field defaults are the Go zero values. -/
structure RaydiumPool where
  AmmId : String := ""
  LpMint : String := ""
  BaseMint : String := ""
  QuoteMint : String := ""
  BaseDecimals : Int := 0
  QuoteDecimals : Int := 0
  LpDecimals : Int := 0
deriving Repr, DecidableEq

/-- Pair record of package main (main.go declares its own copy with five
fields). Field defaults are the Go zero values. -/
structure RaydiumPair where
  Name : String := ""
  Symbol : String := ""
  Address : String := ""
  Timestamp : String := ""
  Pool : RaydiumPool := {}
deriving Repr, DecidableEq

/-- Trading metrics record of package main. -/
structure TokenMetrics where
  PriceChange24h : ℚ := 0
  Volume24h : ℚ := 0
  MarketCap : ℚ := 0
  Liquidity : ℚ := 0
deriving Repr, DecidableEq

/-- Social-presence record of package main. -/
structure SocialMetrics where
  TwitterFollowers : Int := 0
  TelegramMembers : Int := 0
  WebsiteExists : Bool := false
  GitHubExists : Bool := false
  HasWhitepaper : Bool := false
deriving Repr, DecidableEq

/-- Safety snapshot record of package main. Durations are in nanoseconds. -/
structure TokenSafetyMetrics where
  LiquidityLocked : Bool := false
  LiquidityLockTime : Int := 0
  IsHoneypot : Bool := false
  TopHolderShare : ℚ := 0
  HolderCount : Int := 0
  SocialMetrics : SocialMetrics := {}
  ContractVerified : Bool := false
  CreatorAddress : String := ""
  TokenAge : Int := 0
deriving Repr, DecidableEq

/-- One hour in nanoseconds, the unit of Go time.Duration. -/
def timeHour : Int := 3600 * 1000000000

/-- Mock liquidity-lock check of main.go: always locked for 180 days. -/
def checkLiquidityLock (_tokenAddress : String) : Except String (Bool × Int) :=
  .ok (true, 180 * 24 * timeHour)

/-- Mock honeypot check of main.go: never a honeypot. -/
def detectHoneypot (_tokenAddress : String) : Except String Bool :=
  .ok false

/-- Mock holder analysis of main.go: top holder share 0.05, 1000 holders. -/
def analyzeHolders (_tokenAddress : String) : Except String (ℚ × Int) :=
  .ok (0.05, 1000)

/-- Mock social-presence check of main.go. -/
def checkSocialPresence (_tokenAddress : String) : SocialMetrics :=
  { TwitterFollowers := 500, TelegramMembers := 1000,
    WebsiteExists := true, GitHubExists := true, HasWhitepaper := true }

/-- checkTokenSafety of main.go: sequential sub-checks, each error wrapped
and returned at once. -/
def checkTokenSafety (tokenAddress : String) : Except String TokenSafetyMetrics :=
  match checkLiquidityLock tokenAddress with
  | .error e => .error ("failed to check liquidity lock: " ++ e)
  | .ok (locked, lockDuration) =>
    match detectHoneypot tokenAddress with
    | .error e => .error ("failed to check honeypot: " ++ e)
    | .ok isHoneypot =>
      match analyzeHolders tokenAddress with
      | .error e => .error ("failed to analyze holders: " ++ e)
      | .ok (topHolder, holderCount) =>
        .ok { LiquidityLocked := locked, LiquidityLockTime := lockDuration,
              IsHoneypot := isHoneypot, TopHolderShare := topHolder,
              HolderCount := holderCount,
              SocialMetrics := checkSocialPresence tokenAddress }

/-- Mock metrics provider of main.go. -/
def fetchTokenMetrics (_pair : RaydiumPair) : Except String TokenMetrics :=
  .ok { PriceChange24h := 10, Volume24h := 10000, MarketCap := 100000,
        Liquidity := 20000 }

def MIN_LIQUIDITY : ℚ := 10000

def MAX_TOP_HOLDER : ℚ := 0.15

def MIN_HOLDER_COUNT : Int := 100

def MIN_LOCK_DURATION : Int := 30 * 24 * timeHour

def MIN_SOCIAL_SCORE : Int := 2

/-- Rejection reasons of analyzeTokenPotential, carrying the values the Go
code renders into the reason strings. -/
inductive Reason where
  | lowLiquidity (actual threshold : ℚ)
  | liquidityNotLocked
  | lockDurationTooShort (actual threshold : Int)
  | honeypotDetected
  | topHolderOwnsTooMuch (actual threshold : ℚ)
  | tooFewHolders (actual threshold : Int)
  | weakSocialPresence (score threshold : Int)
deriving Repr, DecidableEq

/-- analyzeTokenPotential of main.go: every threshold check appends its
reason, the token is good iff the reason list stays empty. The Go code also
joins the reasons into one comma-separated string for logging. -/
def analyzeTokenPotential (metrics : TokenMetrics) (safety : TokenSafetyMetrics) :
    Bool × List Reason :=
  let reasons : List Reason := []
  let reasons :=
    if metrics.Liquidity < MIN_LIQUIDITY then
      reasons ++ [.lowLiquidity metrics.Liquidity MIN_LIQUIDITY]
    else reasons
  let reasons :=
    if ¬ safety.LiquidityLocked then reasons ++ [.liquidityNotLocked]
    else if safety.LiquidityLockTime < MIN_LOCK_DURATION then
      reasons ++ [.lockDurationTooShort safety.LiquidityLockTime MIN_LOCK_DURATION]
    else reasons
  let reasons := if safety.IsHoneypot then reasons ++ [.honeypotDetected] else reasons
  let reasons :=
    if safety.TopHolderShare > MAX_TOP_HOLDER then
      reasons ++ [.topHolderOwnsTooMuch safety.TopHolderShare MAX_TOP_HOLDER]
    else reasons
  let reasons :=
    if safety.HolderCount < MIN_HOLDER_COUNT then
      reasons ++ [.tooFewHolders safety.HolderCount MIN_HOLDER_COUNT]
    else reasons
  let socialScore : Int :=
    (if safety.SocialMetrics.TwitterFollowers > 100 then 1 else 0)
    + (if safety.SocialMetrics.TelegramMembers > 100 then 1 else 0)
    + (if safety.SocialMetrics.WebsiteExists then 1 else 0)
    + (if safety.SocialMetrics.GitHubExists then 1 else 0)
    + (if safety.SocialMetrics.HasWhitepaper then 1 else 0)
  let reasons :=
    if socialScore < MIN_SOCIAL_SCORE then
      reasons ++ [.weakSocialPresence socialScore MIN_SOCIAL_SCORE]
    else reasons
  (reasons.isEmpty, reasons)

/-- Base58 alphabet used by Solana addresses. -/
def base58Alphabet : List Char :=
  "123456789ABCDEFGHJKLMNPQRSTUVWXYZabcdefghijkmnopqrstuvwxyz".data

/-- Position of a character in the base58 alphabet. -/
def base58DigitValAux : List Char → Char → Nat → Option Nat
  | [], _, _ => none
  | a :: rest, c, i => if a = c then some i else base58DigitValAux rest c (i + 1)

def base58DigitVal (c : Char) : Option Nat :=
  base58DigitValAux base58Alphabet c 0

/-- Base58 big-endian value of a character list; none on a character outside
the alphabet. -/
def base58DecodeNatAux : List Char → Nat → Option Nat
  | [], acc => some acc
  | c :: rest, acc =>
    match base58DigitVal c with
    | some d => base58DecodeNatAux rest (58 * acc + d)
    | none => none

/-- Big-endian minimal byte representation of a number, with fuel (the fuel
is always instantiated with a bound on the byte length). -/
def natBytesBEAux : Nat → Nat → List Nat
  | 0, _ => []
  | _fuel + 1, 0 => []
  | fuel + 1, n => natBytesBEAux fuel (n / 256) ++ [n % 256]

/-- Models PublicKeyFromBase58 of the external solana-go library, which the
code calls through MustPublicKeyFromBase58 (panic on error): base58-decode
the string, prepend one zero byte per leading one digit, and require
exactly 32 bytes. One base58 digit contributes less than one byte, so the
string length bounds the byte length and is a safe fuel. -/
def publicKeyFromBase58 (s : String) : Option (List Nat) :=
  match base58DecodeNatAux s.data 0 with
  | none => none
  | some value =>
    let ones := (s.data.takeWhile (fun c => c = '1')).length
    let bytes := List.replicate ones 0 ++ natBytesBEAux s.data.length value
    if bytes.length = 32 then some bytes else none

/-- Message of the Go panic raised by MustPublicKeyFromBase58. -/
def invalidBase58Msg : String := "invalid base58 public key"

/-- Outcome of the main select-loop body for one token received from the
dispatch channel (main.go lines 355 to 425). The buyAttempted constructor
covers the rest of the branch: attemptBuy and the activity subscription,
whose failures are logged and do not change control flow. -/
inductive ProcessOutcome where
  | skippedInvalidAddress
  | skippedMetricsError (cause : String)
  | skippedSafetyError (cause : String)
  | rejected (reasons : List Reason)
  | panicked (message : String)
  | buyAttempted (targetToken : List Nat)
deriving Repr, DecidableEq

/-- Steady-state processing of one dispatched pair, translated from the main
select loop of main.go, parametric in the two providers (main.go installs
fetchTokenMetrics and checkTokenSafety there): the empty and sentinel
address guard, the provider calls with log-and-continue on error, the gate,
then MustPublicKeyFromBase58 on the pair address. -/
def processToken (fetchMetrics : RaydiumPair → Except String TokenMetrics)
    (checkSafety : String → Except String TokenSafetyMetrics)
    (newToken : RaydiumPair) : ProcessOutcome :=
  if newToken.Address = "" ∨ newToken.Address = Types.systemProgramAddress then
    .skippedInvalidAddress
  else
    match fetchMetrics newToken with
    | .error e => .skippedMetricsError e
    | .ok metrics =>
      match checkSafety newToken.Address with
      | .error e => .skippedSafetyError e
      | .ok safety =>
        let good := analyzeTokenPotential metrics safety
        if ¬ good.1 then .rejected good.2
        else
          match publicKeyFromBase58 newToken.Address with
          | none => .panicked invalidBase58Msg
          | some targetToken => .buyAttempted targetToken

/-- Processing of a sequence of dispatched pairs: the loop handles each one
independently (every failure branch ends in continue). -/
def processCycle (fetchMetrics : RaydiumPair → Except String TokenMetrics)
    (checkSafety : String → Except String TokenSafetyMetrics)
    (tokens : List RaydiumPair) : List ProcessOutcome :=
  tokens.map (processToken fetchMetrics checkSafety)

/-- Seen-state of the Freshness Tracker: pair address to last-observed
instant (nanoseconds), modelling the seenTokens map of trackNewTokens. -/
abbrev SeenState := List (String × Int)

/-- Go map assignment on the seen-state. -/
def setSeen : SeenState → String → Int → SeenState
  | [], address, t => [(address, t)]
  | (k, v) :: rest, address, t =>
    if k = address then (address, t) :: rest else (k, v) :: setSeen rest address t

/-- Per-pair outcome of one iteration of the pair loop in trackNewTokens. -/
inductive TrackOutcome where
  | skippedInvalidAddress
  | skippedUnparseableTimestamp
  | notNewer
  | recordedNotEmitted
  | emitted
deriving Repr, DecidableEq

/-- Loop body of trackNewTokens in main.go for one pair, parametric in the
timestamp parser (modelling time.Parse with the RFC3339 layout): skip empty
or sentinel addresses, skip unparseable timestamps, then emit iff the
address is unseen or strictly newer than its stored instant AND the
timestamp is strictly after lastFetchTime; the seen-state is set to
currentTime whenever the unseen-or-newer test passes. -/
def trackStep (parseTimestamp : String → Option Int) (seen : SeenState)
    (lastFetchTime currentTime : Int) (pair : RaydiumPair) :
    TrackOutcome × SeenState :=
  if pair.Address = "" ∨ pair.Address = Types.systemProgramAddress then
    (.skippedInvalidAddress, seen)
  else
    match parseTimestamp pair.Timestamp with
    | none => (.skippedUnparseableTimestamp, seen)
    | some pairTime =>
      let newOrNewer : Bool :=
        match assocFind pair.Address seen with
        | none => true
        | some lastSeen => decide (pairTime > lastSeen)
      if newOrNewer then
        let seen2 := setSeen seen pair.Address currentTime
        if pairTime > lastFetchTime then (.emitted, seen2)
        else (.recordedNotEmitted, seen2)
      else (.notNewer, seen)

/-- One lamport is a billionth of a SOL. -/
def lamportsPerSOL : ℚ := 1000000000

/-- Conversion of the buy amount to lamports in attemptBuy of main.go, the
Go expression uint64 of amount times 1e9; float64 arithmetic is modelled
exactly over the rationals, and the uint64 conversion truncates toward
zero, which is floor on the nonnegative amounts used. -/
def amountInLamports (amount : ℚ) : Nat :=
  (amount * lamportsPerSOL).floor.toNat

/-- Minimum-output amount in attemptBuy of main.go, the Go expression uint64
of float64 of amountIn times 0.99, modelled exactly over the rationals. -/
def minAmountOutLamports (amount : ℚ) : Nat :=
  (((amountInLamports amount : ℚ)) * 0.99).floor.toNat

/-- Little-endian 8-byte encoding written by binary.LittleEndian.PutUint64. -/
def u64LittleEndianBytes (amountIn : Nat) : List Nat :=
  [amountIn % 256, amountIn / 256 % 256, amountIn / 256 ^ 2 % 256,
   amountIn / 256 ^ 3 % 256, amountIn / 256 ^ 4 % 256, amountIn / 256 ^ 5 % 256,
   amountIn / 256 ^ 6 % 256, amountIn / 256 ^ 7 % 256]

/-- Instruction data built by createSwapInstruction (identical in main.go
and services wallet.go): a 10-byte buffer with opcode 9, the 8 little-endian
bytes of amountIn, and a single byte holding uint8 of minAmountOut, which
reduces the value mod 256. -/
def createSwapInstructionData (amountIn minAmountOut : Nat) : List Nat :=
  9 :: u64LittleEndianBytes amountIn ++ [minAmountOut % 256]

end Main

namespace Inputs

/-- Pair with an empty address and positive liquidity. -/
def pairEmptyAddress : Types.RaydiumPair := { Address := "", Liquidity := 1 }

/-- Oracle whose every attempt succeeds with a singleton listing holding
pairEmptyAddress. -/
def envEmptyAddress : Nat → Services.AttemptOutcome :=
  fun _ => .response 200 (.ok [pairEmptyAddress])

/-- Valid pair delivered by the first attempt of the status-500 oracle. -/
def pairFromFirstAttempt : Types.RaydiumPair := { Name := "A", Liquidity := 1 }

/-- Different valid pair delivered by later attempts. -/
def pairFromRetry : Types.RaydiumPair :=
  { Name := "B", Market := "m", Pool := { BaseMint := "x", QuoteMint := "y" } }

/-- Oracle answering attempt 0 with HTTP status 500 and a decodable body,
and any retry with status 200 and a different pair. -/
def envStatus500 : Nat → Services.AttemptOutcome
  | 0 => .response 500 (.ok [pairFromFirstAttempt])
  | _ + 1 => .response 200 (.ok [pairFromRetry])

/-- Oracle answering attempt 0 with a malformed body and any retry with a
decodable one. -/
def envMalformedFirst : Nat → Services.AttemptOutcome
  | 0 => .response 200 (.error "invalid character")
  | _ + 1 => .response 200 (.ok [pairFromRetry])

/-- Oracle failing at transport level on every attempt, with per-attempt
causes. -/
def envTransportFailures (e0 e1 e2 : String) : Nat → Services.AttemptOutcome
  | 0 => .transportFailure e0
  | 1 => .transportFailure e1
  | _ + 2 => .transportFailure e2

/-- Oracle whose body always decodes but is malformed. -/
def envAlwaysMalformed : Nat → Services.AttemptOutcome :=
  fun _ => .response 200 (.error "bad payload")

/-- Oracle delivering an empty decoded listing on every attempt. -/
def envEmptyListing : Nat → Services.AttemptOutcome :=
  fun _ => .response 200 (.ok [])

/-- Pair with no market, mints, liquidity or price, failing the validity
filter. -/
def pairNoIndicators : Types.RaydiumPair := { Name := "junk", Address := "J1" }

/-- Oracle delivering a singleton listing whose one pair is invalid. -/
def envNoValidPairs : Nat → Services.AttemptOutcome :=
  fun _ => .response 200 (.ok [pairNoIndicators])

/-- Dispatched pair whose address passes the empty and sentinel guard but is
not valid base58 (the digit zero is outside the base58 alphabet). -/
def badBase58Pair : Main.RaydiumPair :=
  { Name := "X", Symbol := "X", Address := "0", Timestamp := "2024-01-01T00:00:00Z" }

/-- Metrics provider failing with a connection error. The providers are
black-box leaves of the pipeline; main.go happens to install a mock that
cannot fail, so the failure branch is exercised through the provider
parameter of processToken. -/
def failingMetricsProvider : Main.RaydiumPair → Except String Main.TokenMetrics :=
  fun _ => .error "connection refused"

/-- Pair dispatched in the provider-failure scenario. -/
def dispatchedPair : Main.RaydiumPair :=
  { Name := "T", Symbol := "T", Address := "T1", Timestamp := "2024-01-01T00:00:00Z" }

/-- Timestamp parser oracle mapping every string to instant 5. -/
def parseAlwaysFive : String → Option Int := fun _ => some 5

/-- Seen-state with one address observed at instant 3. -/
def seenAtThree : Main.SeenState := [("a", 3)]

/-- Pair at address a for the freshness witness. -/
def freshPair : Main.RaydiumPair := { Address := "a", Timestamp := "t" }

/-- Metrics with the lower of the two liquidity values compared by the score
counterexample. -/
def metricsLowLiquidity : Services.TokenMetrics :=
  { Liquidity := 1000, Volume24h := 2000, MarketCap := 0 }

/-- Metrics identical to metricsLowLiquidity except for a higher liquidity
still below the cap point. -/
def metricsHighLiquidity : Services.TokenMetrics :=
  { Liquidity := 1100, Volume24h := 2000, MarketCap := 0 }

/-- Safety snapshot with a neutral multiplier: exactly the minimum holder
count, no concentration, no lock, no socials. -/
def neutralSafety : Services.TokenSafetyMetrics := { HolderCount := 100 }

/-- Metrics with integer fields for the score witness. -/
def witnessMetrics : Services.TokenMetrics :=
  { Liquidity := 1000, Volume24h := 0, MarketCap := 0 }

/-- Token data with the explicit honeypot indicator set. -/
def flaggedTokenData : Services.GoPlusTokenData := { IsHoneypot := "1" }

/-- Provider response keyed by a lowercase address. -/
def lowercaseKeyedResponse : Services.GoPlusSecurityResponse :=
  { Code := 1, Data := [("abc", flaggedTokenData)] }

/-- Provider response whose only key contains uppercase characters. -/
def uppercaseKeyedResponse : Services.GoPlusSecurityResponse :=
  { Code := 1, Data := [("AbC", flaggedTokenData)] }

/-- Value returned by the mock metrics provider of main.go. -/
def mockMetrics : Main.TokenMetrics :=
  { PriceChange24h := 10, Volume24h := 10000, MarketCap := 100000,
    Liquidity := 20000 }

/-- Value returned by the mock safety checker of main.go. -/
def mockSafety : Main.TokenSafetyMetrics :=
  { LiquidityLocked := true, LiquidityLockTime := 180 * 24 * Main.timeHour,
    IsHoneypot := false, TopHolderShare := 0.05, HolderCount := 1000,
    SocialMetrics :=
      { TwitterFollowers := 500, TelegramMembers := 1000,
        WebsiteExists := true, GitHubExists := true, HasWhitepaper := true } }

end Inputs

theorem fetchFrom_succ (env : Nat → Services.AttemptOutcome)
    (attempt remaining : Nat) (lastErr : String) :
    Services.fetchFrom env attempt (remaining + 1) lastErr =
      (match env attempt with
        | .transportFailure cause => Services.fetchFrom env (attempt + 1) remaining cause
        | .response _status (.error cause) => .fetchError (.unmarshalFailure cause)
        | .response _status (.ok pairs) => Services.fetchBody pairs) := rfl

theorem fetchFrom_withStatus (f : Nat → Nat) (env : Nat → Services.AttemptOutcome) :
    ∀ (remaining attempt : Nat) (lastErr : String),
      Services.fetchFrom (Services.withStatus f env) attempt remaining lastErr =
        Services.fetchFrom env attempt remaining lastErr := by
  intro remaining
  induction remaining with
  | zero => intro attempt lastErr; rfl
  | succ n ih =>
    intro attempt lastErr
    rw [fetchFrom_succ, fetchFrom_succ]
    have henv : Services.withStatus f env attempt =
        (match env attempt with
          | .transportFailure cause => .transportFailure cause
          | .response _status decoded =>
              Services.AttemptOutcome.response (f attempt) decoded) := rfl
    rw [henv]
    cases env attempt with
    | transportFailure cause => exact ih (attempt + 1) cause
    | response status decoded => cases decoded <;> rfl

theorem assocFind_eq_none {α : Type} (key : String) (entries : List (String × α))
    (h : ∀ entry ∈ entries, entry.1 ≠ key) : assocFind key entries = none := by
  induction entries with
  | nil => rfl
  | cons e rest ih =>
    rw [show assocFind key (e :: rest) =
      (if e.1 = key then some e.2 else assocFind key rest) from rfl]
    rw [if_neg (h e (by simp))]
    exact ih (fun x hx => h x (by simp [hx]))

/-- C1: the claim that the validity filter drops every pair with an empty or
sentinel address is false: IsValidPair never reads the address, so a pair
with an empty address and positive liquidity passes the filter and is
returned by FetchRaydiumPairs. -/
theorem C1_counterexample :
    Inputs.pairEmptyAddress.Address = "" ∧
    Services.IsValidPair Inputs.pairEmptyAddress = true ∧
    Services.FetchRaydiumPairs Inputs.envEmptyAddress = .ok [Inputs.pairEmptyAddress] :=
  ⟨rfl, by decide, by decide⟩

/-- C1 amended: the validity filter is independent of the address field
(changing the address never changes the verdict of IsValidPair), and the
empty-or-sentinel address guard is instead applied downstream by the
Freshness Tracker loop, which drops such pairs before any freshness or
emission logic. -/
theorem C1_filter_ignores_address (p : Types.RaydiumPair) (a : String)
    (parseTimestamp : String → Option Int) (seen : Main.SeenState)
    (lastFetchTime currentTime : Int) (q : Main.RaydiumPair)
    (h : q.Address = "" ∨ q.Address = Types.systemProgramAddress) :
    Services.IsValidPair { p with Address := a } = Services.IsValidPair p ∧
    Main.trackStep parseTimestamp seen lastFetchTime currentTime q =
      (.skippedInvalidAddress, seen) :=
  ⟨rfl, by unfold Main.trackStep; rw [if_pos h]⟩

theorem C1_filter_ignores_address_witness :
    Services.IsValidPair { Inputs.pairEmptyAddress with Address := "W" } =
      Services.IsValidPair Inputs.pairEmptyAddress ∧
    Main.trackStep Inputs.parseAlwaysFive [] 0 0 ({ } : Main.RaydiumPair) =
      (.skippedInvalidAddress, []) :=
  C1_filter_ignores_address Inputs.pairEmptyAddress "W" Inputs.parseAlwaysFive
    [] 0 0 { } (Or.inl rfl)

/-- C6: the claim is false in two ways at concrete inputs: a response with
non-success HTTP status 500 is not retried but processed like a success
(the fetch returns the payload of the 500 response, not that of the waiting
retry), and a malformed payload produces a terminal error on the first
attempt instead of only after exhausting the retries. -/
theorem C6_counterexample :
    Services.FetchRaydiumPairs Inputs.envStatus500 = .ok [Inputs.pairFromFirstAttempt] ∧
    decide (Inputs.pairFromFirstAttempt = Inputs.pairFromRetry) = false ∧
    Services.FetchRaydiumPairs Inputs.envMalformedFirst =
      .fetchError (.unmarshalFailure "invalid character") :=
  ⟨by decide, by decide, by decide⟩

/-- C6 amended: the bounded retry (3 attempts, wrapping the last underlying
error into the terminal error) applies only to transport-level failures;
the HTTP status code is never inspected, so the fetch result is invariant
under arbitrary changes of the status codes; and a malformed payload is
reported as a fetch error immediately, without consuming the remaining
retries. -/
theorem C6_retry_policy :
    (∀ e0 e1 e2 : String,
      Services.FetchRaydiumPairs (Inputs.envTransportFailures e0 e1 e2) =
        .fetchError (.maxRetriesExceeded e2)) ∧
    (∀ (env : Nat → Services.AttemptOutcome) (status : Nat) (cause : String),
      env 0 = .response status (.error cause) →
      Services.FetchRaydiumPairs env = .fetchError (.unmarshalFailure cause)) ∧
    (∀ (f : Nat → Nat) (env : Nat → Services.AttemptOutcome),
      Services.FetchRaydiumPairs (Services.withStatus f env) =
        Services.FetchRaydiumPairs env) := by
  refine ⟨fun e0 e1 e2 => rfl, fun env status cause h => ?_, fun f env => ?_⟩
  · show Services.fetchFrom env 0 3 "" = _
    rw [show (3 : Nat) = 2 + 1 from rfl, fetchFrom_succ, h]
  · exact fetchFrom_withStatus f env 3 0 ""

theorem C6_retry_policy_witness :
    Services.FetchRaydiumPairs (Inputs.envTransportFailures "e0" "e1" "e2") =
      .fetchError (.maxRetriesExceeded "e2") ∧
    Services.FetchRaydiumPairs Inputs.envAlwaysMalformed =
      .fetchError (.unmarshalFailure "bad payload") ∧
    Services.FetchRaydiumPairs (Services.withStatus (fun _ => 404) Inputs.envAlwaysMalformed) =
      Services.FetchRaydiumPairs Inputs.envAlwaysMalformed :=
  ⟨C6_retry_policy.1 "e0" "e1" "e2",
    C6_retry_policy.2.1 Inputs.envAlwaysMalformed 200 "bad payload" rfl,
    C6_retry_policy.2.2 (fun _ => 404) Inputs.envAlwaysMalformed⟩

/-- C7: the data-quality error is indeed a distinct error value from the
transport-retry error, and a non-empty listing with zero valid pairs does
return it; but for the empty decoded listing the claim fails against the
code, which panics with an index-out-of-range while logging the first pair
before any length check, instead of returning an error. -/
theorem C7_zero_valid_pairs :
    Services.FetchRaydiumPairs Inputs.envEmptyListing =
      .panics Services.indexOutOfRangeMsg ∧
    Services.FetchRaydiumPairs Inputs.envNoValidPairs =
      .fetchError (.noValidPairsFound 1) ∧
    (∀ (total : Nat) (lastErr : String),
      decide (Services.FetchError.noValidPairsFound total =
        Services.FetchError.maxRetriesExceeded lastErr) = false) :=
  ⟨by decide, by decide, fun total lastErr => rfl⟩

/-- C4: for a pair that reaches the freshness logic (valid address) and has
a parseable timestamp, the tracker emits it as new exactly when the address
is unseen or the timestamp is strictly after the stored last-seen instant,
and in addition the timestamp is strictly after lastFetchTime; in
particular a timestamp at or before lastFetchTime is never emitted. -/
theorem C4_freshness_rule (parseTimestamp : String → Option Int)
    (seen : Main.SeenState) (lastFetchTime currentTime : Int)
    (pair : Main.RaydiumPair) (ts : Int)
    (haddr : ¬ (pair.Address = "" ∨ pair.Address = Types.systemProgramAddress))
    (hts : parseTimestamp pair.Timestamp = some ts) :
    ((Main.trackStep parseTimestamp seen lastFetchTime currentTime pair).1 =
        .emitted ↔
      ((∀ lastSeen, assocFind pair.Address seen = some lastSeen → lastSeen < ts) ∧
        lastFetchTime < ts)) ∧
    (ts ≤ lastFetchTime →
      (Main.trackStep parseTimestamp seen lastFetchTime currentTime pair).1 ≠
        .emitted) := by
  have hstep : Main.trackStep parseTimestamp seen lastFetchTime currentTime pair =
      (if (match assocFind pair.Address seen with
            | none => true
            | some lastSeen => decide (ts > lastSeen)) then
        (if ts > lastFetchTime then
          (.emitted, Main.setSeen seen pair.Address currentTime)
         else (.recordedNotEmitted, Main.setSeen seen pair.Address currentTime))
       else (.notNewer, seen)) := by
    unfold Main.trackStep
    rw [if_neg haddr, hts]
  have hemit : ((if (match assocFind pair.Address seen with
        | none => true
        | some lastSeen => decide (ts > lastSeen)) then
        (if ts > lastFetchTime then
          (Main.TrackOutcome.emitted, Main.setSeen seen pair.Address currentTime)
         else (.recordedNotEmitted, Main.setSeen seen pair.Address currentTime))
       else (.notNewer, seen)).1 = Main.TrackOutcome.emitted) ↔
      ((∀ lastSeen, assocFind pair.Address seen = some lastSeen → lastSeen < ts) ∧
        lastFetchTime < ts) := by
    cases hfind : assocFind pair.Address seen with
    | none =>
      by_cases hlf : lastFetchTime < ts <;> simp [hlf, gt_iff_lt]
    | some lastSeen =>
      by_cases hls : lastSeen < ts <;> by_cases hlf : lastFetchTime < ts <;>
        simp [hls, hlf, gt_iff_lt]
  constructor
  · rw [hstep]
    exact hemit
  · intro hle h
    rw [hstep] at h
    exact absurd (hemit.mp h).2 (by omega)

theorem C4_freshness_rule_witness :
    (((Main.trackStep Inputs.parseAlwaysFive Inputs.seenAtThree 4 9 Inputs.freshPair).1 =
        .emitted) ↔
      ((∀ lastSeen, assocFind Inputs.freshPair.Address Inputs.seenAtThree = some lastSeen →
          lastSeen < 5) ∧ (4 : Int) < 5)) ∧
    ((5 : Int) ≤ 4 →
      (Main.trackStep Inputs.parseAlwaysFive Inputs.seenAtThree 4 9 Inputs.freshPair).1 ≠
        .emitted) :=
  C4_freshness_rule Inputs.parseAlwaysFive Inputs.seenAtThree 4 9 Inputs.freshPair 5
    (by decide) rfl

/-- C5: the claim fails against the code: when the metrics provider fails
for a pair, the loop body logs and skips the pair without ever constructing
a gate decision, so no fail decision with a data-unavailable reason exists;
the outcome is the skip constructor carrying the logged cause, which is not
a rejection with reasons. -/
theorem C5_counterexample :
    Main.processToken Inputs.failingMetricsProvider Main.checkTokenSafety
      Inputs.dispatchedPair = .skippedMetricsError "connection refused" ∧
    (∀ reasons : List Main.Reason,
      decide (Main.ProcessOutcome.skippedMetricsError "connection refused" =
        .rejected reasons) = false) :=
  ⟨by decide, fun reasons => rfl⟩

/-- C5 amended: a provider failure for a pair aborts only that pair with a
logged cause (metrics failure and safety failure each map to their skip
outcome), and the cycle continues: processing a list of dispatched pairs
handles each pair independently of the outcome of the previous one. -/
theorem C5_provider_failure_skips
    (fetchMetrics : Main.RaydiumPair → Except String Main.TokenMetrics)
    (checkSafety : String → Except String Main.TokenSafetyMetrics)
    (pair : Main.RaydiumPair) (cause : String)
    (haddr : ¬ (pair.Address = "" ∨ pair.Address = Types.systemProgramAddress)) :
    (fetchMetrics pair = .error cause →
      Main.processToken fetchMetrics checkSafety pair = .skippedMetricsError cause) ∧
    (∀ metrics, fetchMetrics pair = .ok metrics →
      checkSafety pair.Address = .error cause →
      Main.processToken fetchMetrics checkSafety pair = .skippedSafetyError cause) ∧
    (∀ rest : List Main.RaydiumPair,
      Main.processCycle fetchMetrics checkSafety (pair :: rest) =
        Main.processToken fetchMetrics checkSafety pair ::
          Main.processCycle fetchMetrics checkSafety rest) := by
  refine ⟨fun hfail => ?_, fun metrics hok hfail => ?_, fun rest => rfl⟩
  · unfold Main.processToken
    rw [if_neg haddr, hfail]
  · unfold Main.processToken
    rw [if_neg haddr, hok, hfail]

theorem C5_provider_failure_skips_witness :
    Main.processToken Inputs.failingMetricsProvider Main.checkTokenSafety
      Inputs.dispatchedPair = .skippedMetricsError "connection refused" ∧
    Main.processCycle Inputs.failingMetricsProvider Main.checkTokenSafety
      [Inputs.dispatchedPair] = [.skippedMetricsError "connection refused"] := by
  have h := C5_provider_failure_skips Inputs.failingMetricsProvider
    Main.checkTokenSafety Inputs.dispatchedPair "connection refused" (by decide)
  exact ⟨h.1 rfl, by rw [h.2.2 [], h.1 rfl]; rfl⟩

/-- C2: the claim fails against the code: a dispatched pair whose address
passes the empty-and-sentinel guard and the gate (the providers installed
by main.go always succeed and the mock values pass every threshold) but is
not a valid base58 public key drives MustPublicKeyFromBase58 into a panic,
which aborts the process. The theorem evaluates the steady-state loop body
at such an input. -/
theorem C2_invalid_base58_panics :
    Main.publicKeyFromBase58 Inputs.badBase58Pair.Address = none ∧
    Main.processToken Main.fetchTokenMetrics Main.checkTokenSafety
      Inputs.badBase58Pair = .panicked Main.invalidBase58Msg := by
  have hgate : Main.analyzeTokenPotential Inputs.mockMetrics Inputs.mockSafety =
      (true, []) := by
    norm_num [Main.analyzeTokenPotential, Main.MIN_LIQUIDITY, Main.MAX_TOP_HOLDER,
      Main.MIN_HOLDER_COUNT, Main.MIN_LOCK_DURATION, Main.MIN_SOCIAL_SCORE,
      Main.timeHour, Inputs.mockMetrics, Inputs.mockSafety]
  refine ⟨by decide, ?_⟩
  have hmetrics : Main.fetchTokenMetrics Inputs.badBase58Pair =
      .ok Inputs.mockMetrics := rfl
  have hsafety : Main.checkTokenSafety Inputs.badBase58Pair.Address =
      .ok Inputs.mockSafety := rfl
  unfold Main.processToken
  rw [if_neg (by decide), hmetrics, hsafety]
  simp only [hgate]
  rw [show Main.publicKeyFromBase58 Inputs.badBase58Pair.Address = none from by decide]
  simp

/-- C3: the minimum-output amount is computed as 99 percent of the input
lamports (floor of 0.99 times floor of amount times 1e9, under the exact
rational model of the float arithmetic), but the claim that it is
faithfully represented in the serialized instruction data fails against the
code: createSwapInstruction writes only a single byte for it, the value
mod 256. At the 0.1 SOL buy amount used by main.go the computed
minAmountOut is 99000000 while the byte written into the data is 192. -/
theorem C3_serialized_min_out :
    Main.amountInLamports 0.1 = 100000000 ∧
    Main.minAmountOutLamports 0.1 = 99000000 ∧
    Main.createSwapInstructionData 100000000 99000000 =
      [9, 0, 225, 245, 5, 0, 0, 0, 0, 192] ∧
    decide ((99000000 : Nat) % 256 = 99000000) = false := by
  have h1 : Main.amountInLamports 0.1 = 100000000 := by
    unfold Main.amountInLamports Main.lamportsPerSOL
    rw [show ((0.1 : ℚ) * 1000000000) = 100000000 by norm_num]
    rw [show Rat.floor (100000000 : ℚ) = ⌊(100000000 : ℚ)⌋ from rfl]
    norm_num
    rfl
  refine ⟨h1, ?_, by decide, by decide⟩
  unfold Main.minAmountOutLamports
  rw [h1]
  rw [show (((100000000 : Nat) : ℚ) * 0.99) = 99000000 by norm_num]
  rw [show Rat.floor (99000000 : ℚ) = ⌊(99000000 : ℚ)⌋ from rfl]
  norm_num
  rfl

/-- C8: the claim fails against the code: with volume, market cap and all
safety inputs fixed, raising liquidity from 1000 to 1100 (both below the
cap point of 2500, as the second conjunct records) strictly lowers the
score, because the volume-to-liquidity ratio term shrinks faster than the
liquidity term grows. -/
theorem C8_counterexample :
    Inputs.metricsLowLiquidity.Liquidity < Inputs.metricsHighLiquidity.Liquidity ∧
    Services.liquidityContribution Inputs.metricsHighLiquidity.Liquidity <
      Services.liquidityContribution (5 * Types.MIN_LIQUIDITY_USD) ∧
    Services.CalculateTokenScore Inputs.metricsHighLiquidity Inputs.neutralSafety <
      Services.CalculateTokenScore Inputs.metricsLowLiquidity Inputs.neutralSafety := by
  refine ⟨by norm_num [Inputs.metricsLowLiquidity, Inputs.metricsHighLiquidity], ?_, ?_⟩
  · norm_num [Services.liquidityContribution, Types.MIN_LIQUIDITY_USD,
      Inputs.metricsHighLiquidity, min_def]
  · norm_num [Services.CalculateTokenScore, Services.liquidityContribution,
      Types.MIN_LIQUIDITY_USD, Types.MAX_MARKET_CAP_USD, Types.MIN_HOLDER_COUNT,
      Inputs.metricsLowLiquidity, Inputs.metricsHighLiquidity, Inputs.neutralSafety,
      min_def]

/-- C8 amended: the score is non-negative whenever volume, liquidity and
holder count are non-negative and the market cap does not exceed the
configured maximum, and the liquidity contribution term is strictly
increasing in liquidity up to the cap point of 5 times the minimum
liquidity; the total score, however, is not monotone in liquidity (see the
counterexample), since the volume-to-liquidity term decreases as liquidity
rises. -/
theorem C8_score_shape :
    (∀ (m : Services.TokenMetrics) (s : Services.TokenSafetyMetrics),
      0 ≤ m.Liquidity → 0 ≤ m.Volume24h → m.MarketCap ≤ Types.MAX_MARKET_CAP_USD →
      0 ≤ s.HolderCount → 0 ≤ Services.CalculateTokenScore m s) ∧
    (∀ l1 l2 : ℚ, l1 < l2 → l2 ≤ 5 * Types.MIN_LIQUIDITY_USD →
      Services.liquidityContribution l1 < Services.liquidityContribution l2) := by
  constructor
  · intro m s hL hV hMC hH
    unfold Services.CalculateTokenScore Services.liquidityContribution
    have h500 : (0 : ℚ) < 500 := by norm_num
    have hlc : (0 : ℚ) ≤ min (m.Liquidity / Types.MIN_LIQUIDITY_USD) 5 * 20 := by
      have := le_min (div_nonneg hL h500.le) (by norm_num : (0 : ℚ) ≤ 5)
      rw [Types.MIN_LIQUIDITY_USD]
      nlinarith
    have hmc : (0 : ℚ) ≤ (1 - m.MarketCap / Types.MAX_MARKET_CAP_USD) * 30 := by
      have h1 : m.MarketCap / Types.MAX_MARKET_CAP_USD ≤ 1 := by
        rw [div_le_one (by norm_num [Types.MAX_MARKET_CAP_USD])]
        exact hMC
      nlinarith
    have hscore : (0 : ℚ) ≤
        (if m.Liquidity > 0 then
          0 + min (m.Liquidity / Types.MIN_LIQUIDITY_USD) 5 * 20 +
            min (m.Volume24h / m.Liquidity * 50) 100
         else 0 + min (m.Liquidity / Types.MIN_LIQUIDITY_USD) 5 * 20) +
          (1 - m.MarketCap / Types.MAX_MARKET_CAP_USD) * 30 := by
      split
      · rename_i hpos
        have hvol : (0 : ℚ) ≤ min (m.Volume24h / m.Liquidity * 50) 100 :=
          le_min (by positivity) (by norm_num)
        nlinarith
      · nlinarith
    have hmult : (0 : ℚ) ≤
        (if s.LiquidityLocked then
          (if s.TopHolderShare > 0.5 then
            1 * min ((s.HolderCount : ℚ) / (Types.MIN_HOLDER_COUNT : ℚ)) 2 * 0.5
           else 1 * min ((s.HolderCount : ℚ) / (Types.MIN_HOLDER_COUNT : ℚ)) 2) * 1.2
         else
          (if s.TopHolderShare > 0.5 then
            1 * min ((s.HolderCount : ℚ) / (Types.MIN_HOLDER_COUNT : ℚ)) 2 * 0.5
           else 1 * min ((s.HolderCount : ℚ) / (Types.MIN_HOLDER_COUNT : ℚ)) 2)) *
          (1 + ((if s.SocialMetrics.WebsiteExists then (0.1 : ℚ) else 0) +
            (if s.SocialMetrics.GitHubExists then (0.1 : ℚ) else 0) +
            (if s.SocialMetrics.HasWhitepaper then (0.1 : ℚ) else 0))) := by
      have hmin : (0 : ℚ) ≤ min ((s.HolderCount : ℚ) / (Types.MIN_HOLDER_COUNT : ℚ)) 2 := by
        refine le_min (div_nonneg ?_ ?_) (by norm_num)
        · exact_mod_cast hH
        · norm_num [Types.MIN_HOLDER_COUNT]
      apply mul_nonneg
      · split_ifs <;> nlinarith
      · split_ifs <;> norm_num
    exact mul_nonneg hscore hmult
  · intro l1 l2 h12 hcap
    unfold Services.liquidityContribution
    have h500 : (0 : ℚ) < 500 := by norm_num
    have hlt : l1 / Types.MIN_LIQUIDITY_USD < l2 / Types.MIN_LIQUIDITY_USD := by
      rw [Types.MIN_LIQUIDITY_USD]
      exact (div_lt_div_iff_of_pos_right h500).mpr h12
    have hle : l2 / Types.MIN_LIQUIDITY_USD ≤ 5 := by
      rw [Types.MIN_LIQUIDITY_USD] at hcap ⊢
      rw [div_le_iff₀ h500]
      linarith
    have hmin2 : min (l2 / Types.MIN_LIQUIDITY_USD) 5 = l2 / Types.MIN_LIQUIDITY_USD :=
      min_eq_left hle
    rw [hmin2]
    have := lt_of_le_of_lt (min_le_left (l1 / Types.MIN_LIQUIDITY_USD) 5) hlt
    nlinarith

theorem C8_score_shape_witness :
    (0 : ℚ) ≤ Services.CalculateTokenScore Inputs.witnessMetrics Inputs.neutralSafety ∧
    Services.liquidityContribution 1000 < Services.liquidityContribution 2500 :=
  ⟨C8_score_shape.1 Inputs.witnessMetrics Inputs.neutralSafety (by decide) (by decide)
      (by decide) (by decide),
    C8_score_shape.2 1000 2500 (by decide) (by norm_num [Types.MIN_LIQUIDITY_USD])⟩

theorem if_then_true_eq (c : Prop) [Decidable c] (b : Bool) :
    (if c then true else b) = (decide c || b) := by
  by_cases h : c <;> simp [h]

/-- C9: with security data obtained for the token (a code-1 response whose
data map has an entry at the lowercased address), DetectHoneypot returns
the verdict of the flag chain, and that verdict is true exactly when the
explicit indicator is set, the token is not sellable, a parsed sell or buy
tax exceeds 20 percent, transfers are paused, or the token is
blacklisted. -/
theorem C9_honeypot_characterization (result : Services.GoPlusSecurityResponse)
    (tokenAddress : String) (d : Services.GoPlusTokenData)
    (hcode : result.Code = 1)
    (hfound : assocFind (Services.goToLower tokenAddress) result.Data = some d) :
    Services.DetectHoneypot result tokenAddress =
      .ok (Services.honeypotVerdict d) ∧
    (Services.honeypotVerdict d = true ↔
      (d.IsHoneypot = "1" ∨ d.IsSellable = "0" ∨
        (∃ t, Services.parseDecimal d.SellTax = some t ∧ 20 < t) ∨
        (∃ t, Services.parseDecimal d.BuyTax = some t ∧ 20 < t) ∨
        d.TransferPaused = "1" ∨ d.IsBlacklisted = "1")) := by
  constructor
  · unfold Services.DetectHoneypot
    rw [if_neg (by simp [hcode]), hfound]
  · unfold Services.honeypotVerdict
    cases hsell : Services.parseDecimal d.SellTax <;>
      cases hbuy : Services.parseDecimal d.BuyTax <;>
        simp only [hsell, hbuy, if_then_true_eq] <;>
          simp [Bool.or_eq_true, decide_eq_true_eq] <;> tauto

theorem C9_honeypot_characterization_witness :
    Services.DetectHoneypot Inputs.lowercaseKeyedResponse "ABC" =
      .ok (Services.honeypotVerdict Inputs.flaggedTokenData) ∧
    (Services.honeypotVerdict Inputs.flaggedTokenData = true ↔
      (Inputs.flaggedTokenData.IsHoneypot = "1" ∨
        Inputs.flaggedTokenData.IsSellable = "0" ∨
        (∃ t, Services.parseDecimal Inputs.flaggedTokenData.SellTax = some t ∧ 20 < t) ∨
        (∃ t, Services.parseDecimal Inputs.flaggedTokenData.BuyTax = some t ∧ 20 < t) ∨
        Inputs.flaggedTokenData.TransferPaused = "1" ∨
        Inputs.flaggedTokenData.IsBlacklisted = "1")) :=
  C9_honeypot_characterization Inputs.lowercaseKeyedResponse "ABC"
    Inputs.flaggedTokenData rfl (by decide)

theorem char_toNat_ofNat_valid {n : Nat} (h : n.isValidChar) :
    (Char.ofNat n).toNat = n := by
  rw [Char.ofNat, dif_pos h]
  rfl

theorem char_isUpper_iff (c : Char) :
    c.isUpper = true ↔ 65 ≤ c.toNat ∧ c.toNat ≤ 90 := by
  simp only [Char.isUpper, Bool.and_eq_true, decide_eq_true_eq, UInt32.le_def,
    BitVec.le_def]
  exact Iff.rfl

theorem toLower_not_isUpper (c : Char) : (Char.toLower c).isUpper = false := by
  rw [show Char.toLower c =
    if c.toNat ≥ 65 ∧ c.toNat ≤ 90 then Char.ofNat (c.toNat + 32) else c from rfl]
  split
  · rename_i h
    have hv : (Char.toNat c + 32).isValidChar := Or.inl (by omega)
    rw [Bool.eq_false_iff, Ne, char_isUpper_iff, char_toNat_ofNat_valid hv]
    intro hcontra
    omega
  · rename_i h
    rw [Bool.eq_false_iff, Ne, char_isUpper_iff]
    intro hcontra
    exact h ⟨hcontra.1, hcontra.2⟩

theorem containsUpper_goToLower (s : String) :
    Services.containsUpper (Services.goToLower s) = false := by
  unfold Services.containsUpper Services.goToLower
  rw [List.any_eq_false]
  intro c hc
  simp only [String.data] at hc
  simp only [List.mem_map] at hc
  obtain ⟨a, _, rfl⟩ := hc
  simp [toLower_not_isUpper]

/-- C10: DetectHoneypot keys its lookup by the lowercased token address, so
when every key of the provider data map contains an ASCII uppercase
character the lookup misses (a lowercased string has no uppercase
characters) and the function returns the token-data-not-found error instead
of a honeypot verdict. -/
theorem C10_uppercase_keys_never_found (result : Services.GoPlusSecurityResponse)
    (tokenAddress : String)
    (hcode : result.Code = 1)
    (hkeys : ∀ entry ∈ result.Data, Services.containsUpper entry.1 = true) :
    Services.DetectHoneypot result tokenAddress =
      .error "token data not found in response" := by
  have hnone : assocFind (Services.goToLower tokenAddress) result.Data = none := by
    apply assocFind_eq_none
    intro entry hentry hEq
    have h1 := hkeys entry hentry
    rw [hEq, containsUpper_goToLower] at h1
    exact Bool.false_ne_true h1
  unfold Services.DetectHoneypot
  rw [if_neg (by simp [hcode]), hnone]

theorem C10_uppercase_keys_never_found_witness :
    Services.DetectHoneypot Inputs.uppercaseKeyedResponse "AbC" =
      .error "token data not found in response" :=
  C10_uppercase_keys_never_found Inputs.uppercaseKeyedResponse "AbC" rfl (by decide)
